import Mathlib

/-!
Verification development for the skill-cortex-lite repository
(`skill_cortex/server.py`, `skill_cortex/skill_manager.py`).

Python strings are modelled as `List Char` (`PyStr`), filesystem paths as
lists of path components (`PyPath := List String`), and filesystem effects
as explicit boolean environments passed to the embedded functions.
-/

set_option autoImplicit false

namespace SkillCortex

/-- A Python `str`, modelled as its list of characters (code points). -/
abbrev PyStr := List Char

/-- A filesystem path, modelled as its list of components
(the `parts` of a `pathlib.Path`, anchor included implicitly). -/
abbrev PyPath := List String

/-- Characters for which Python's `str.isspace()` is true; this is the set
stripped by `str.strip()` / `str.lstrip()` with no argument. -/
def isPySpace (c : Char) : Bool :=
  c = ' ' || c = '\t' || c = '\n' || c = '\r' || c = '\x0b' || c = '\x0c' ||
  c = '\x1c' || c = '\x1d' || c = '\x1e' || c = '\x1f' || c = '\x85' || c = '\xa0' ||
  c = Char.ofNat 0x1680 || (Char.ofNat 0x2000 ≤ c && c ≤ Char.ofNat 0x200a) ||
  c = Char.ofNat 0x2028 || c = Char.ofNat 0x2029 || c = Char.ofNat 0x202f ||
  c = Char.ofNat 0x205f || c = Char.ofNat 0x3000

/-- Python `str.lstrip()`. -/
def pyLstrip (s : PyStr) : PyStr := s.dropWhile isPySpace

/-- Strip trailing Python whitespace. -/
def pyRstrip (s : PyStr) : PyStr := (s.reverse.dropWhile isPySpace).reverse

/-- Python `str.strip()`. -/
def pyStrip (s : PyStr) : PyStr := pyRstrip (pyLstrip s)

/-- Python `str.split(sep)` for a one-character separator: splits at every
occurrence of `sep`, keeping empty pieces (`"".split("/") == [""]`). -/
def pySplitOn : PyStr → Char → List PyStr
  | [], _ => [[]]
  | c :: cs, sep =>
    if c = sep then [] :: pySplitOn cs sep
    else
      match pySplitOn cs sep with
      | t :: ts => (c :: t) :: ts
      | [] => [[c]]

/-- Python `str.lower()` on one character, restricted to the ASCII range.
Every comparison in the embedded code is against an ASCII literal, so
non-ASCII letters (where CPython applies Unicode case folding) are left
unchanged here. -/
def pyLowerChar (c : Char) : Char :=
  if 'A' ≤ c && c ≤ 'Z' then Char.ofNat (c.toNat + 32) else c

/-- Python `str.lower()` (ASCII range, see `pyLowerChar`). -/
def pyLower (s : PyStr) : PyStr := s.map pyLowerChar

/-- Line-break characters recognised by Python `str.splitlines`. -/
def isLineBreak (c : Char) : Bool :=
  c = '\n' || c = '\r' || c = '\x0b' || c = '\x0c' ||
  c = '\x1c' || c = '\x1d' || c = '\x1e' || c = '\x85' || c = Char.ofNat 0x2028 || c = Char.ofNat 0x2029

/-- Python `str.splitlines(keepends=True)`: each returned line keeps its
terminator, a CR-LF pair counts as a single break, and a final
unterminated line is returned as-is.  `acc` holds the current line,
reversed. -/
def splitlinesAux : PyStr → PyStr → List PyStr
  | [], [] => []
  | [], acc => [acc.reverse]
  | '\r' :: '\n' :: rest, acc => (acc.reverse ++ ['\r', '\n']) :: splitlinesAux rest []
  | c :: rest, acc =>
    if isLineBreak c then (acc.reverse ++ [c]) :: splitlinesAux rest []
    else splitlinesAux rest (c :: acc)

/-- Python `str.splitlines(keepends=True)`. -/
def pySplitlinesKeepends (s : PyStr) : List PyStr := splitlinesAux s []

/-- Python `", ".join(tags)`. -/
def pyJoinCommaSpace : List PyStr → PyStr
  | [] => []
  | [t] => t
  | t :: ts => t ++ [',', ' '] ++ pyJoinCommaSpace ts

/-- The frontmatter delimiter `"---"`. -/
def dashes : PyStr := ['-', '-', '-']

/-! ### `skill_manager.py` -/

/-- Characters accepted by the validation regex `[a-z0-9-]`. -/
def isNameChar (c : Char) : Bool :=
  ('a' ≤ c && c ≤ 'z') || ('0' ≤ c && c ≤ '9') || c = '-'

/-- Python `re.match` of `[a-z0-9-]+` anchored at both ends, as a boolean.
The end anchor of the regex also matches just before a single newline that
ends the string, so one trailing newline is tolerated by CPython and
therefore here. -/
def matchesNamePattern (s : PyStr) : Bool :=
  let core := if s.getLast? = some '\n' then s.dropLast else s
  !core.isEmpty && core.all isNameChar

/-- Whether the string contains two consecutive hyphens (`"--" in name`). -/
def hasDoubleHyphen : PyStr → Bool
  | '-' :: '-' :: _ => true
  | _ :: rest => hasDoubleHyphen rest
  | [] => false

/-- Embedding of `validate_skill_name_part` (skill_manager.py, lines 13-37): returns
`(is_valid, error_message)`. -/
def validate_skill_name_part (name : PyStr) : Bool × String :=
  if name.isEmpty then (false, "Name cannot be empty")
  else if name.length > 64 then
    (false, "Name too long (max 64 chars): " ++ toString name.length)
  else if !matchesNamePattern name then
    (false, "Name must contain only lowercase letters, numbers, and hyphens")
  else if name.head? = some '-' || name.getLast? = some '-' then
    (false, "Name cannot start or end with a hyphen")
  else if hasDoubleHyphen name then
    (false, "Name cannot contain consecutive hyphens")
  else (true, "")

/-- The component list computed by `parse_skill_path`:
`[p.strip() for p in path.split("/") if p.strip()]`. -/
def stripParts (path : PyStr) : List PyStr :=
  ((pySplitOn path '/').map pyStrip).filter (fun p => !p.isEmpty)

/-- The validation loop of `parse_skill_path`: first invalid component
produces the error message, otherwise `none`. -/
def checkParts : List PyStr → Option String
  | [] => none
  | p :: ps =>
    let v := validate_skill_name_part p
    if v.1 then checkParts ps
    else some ("Invalid path component '" ++ String.mk p ++ "': " ++ v.2)

/-- Embedding of `parse_skill_path` (skill_manager.py, lines 40-66): on success returns
`(category_path, skill_name)`, otherwise the error message. -/
def parse_skill_path (path : PyStr) : Except String (List PyStr × PyStr) :=
  if path.isEmpty then .error "Path cannot be empty"
  else
    let parts := stripParts path
    if parts.isEmpty then .error "Path cannot be empty"
    else
      match checkParts parts with
      | some e => .error e
      | none => .ok (parts.dropLast, parts.getLastD [])

/-- Modelled from the spec: `normalize_tags` lives in
`skill_cortex/frontmatter.py`, which is not among the provided sources.
Per spec section 4.1 it trims whitespace, lower-cases, collapses
whitespace-separated words into hyphen-separated tokens, drops empty
entries, and removes duplicates while preserving first-seen order. -/
def splitWsAux : PyStr → PyStr → List PyStr
  | [], [] => []
  | [], acc => [acc.reverse]
  | c :: rest, acc =>
    if isPySpace c then
      if acc.isEmpty then splitWsAux rest []
      else acc.reverse :: splitWsAux rest []
    else splitWsAux rest (c :: acc)

/-- Split on runs of whitespace, dropping empty tokens. -/
def splitWs (s : PyStr) : List PyStr := splitWsAux s []

/-- Join tokens with a single hyphen. -/
def joinHyphen : List PyStr → PyStr
  | [] => []
  | [t] => t
  | t :: ts => t ++ '-' :: joinHyphen ts

/-- Modelled from the spec (see `splitWsAux`): one tag is trimmed,
lower-cased and its whitespace-separated words joined by hyphens. -/
def normalizeOneTag (t : PyStr) : PyStr :=
  joinHyphen (splitWs (pyLower (pyStrip t)))

/-- Remove duplicates, keeping the first occurrence. -/
def dedupAux : List PyStr → List PyStr → List PyStr
  | [], _ => []
  | t :: ts, seen =>
    if seen.contains t then dedupAux ts seen
    else t :: dedupAux ts (t :: seen)

/-- Modelled from the spec: `normalize_tags` (see `splitWsAux` for the
missing source); normalizes each tag, drops empties, dedups keeping
first-seen order. -/
def normalize_tags (tags : List PyStr) : List PyStr :=
  dedupAux ((tags.map normalizeOneTag).filter (fun t => !t.isEmpty)) []

/-- Python `pathlib.Path.name` of a path given by its components: the final
component, or the empty string when there is none. -/
def rootName (r : PyPath) : String := r.getLastD ""

/-- The test `root.name == ".skills" or root.name == "skills"` shared by
`create_skill` and `is_deletable_skill`. -/
def isWritableName (r : PyPath) : Bool :=
  rootName r == ".skills" || rootName r == "skills"

/-- Whether Python `o` is truthy for an optional string (`if license:`). -/
def optTruthy : Option String → Bool
  | none => false
  | some s => !s.isEmpty

/-- Embedding of `generate_skill_markdown` (skill_manager.py, lines 69-130). -/
def generate_skill_markdown (name : PyStr) (description : PyStr)
    (tags : List PyStr) (instructions : Option String)
    (license : Option String) (metadata : List (String × String)) : String :=
  let base := ["---", "name: " ++ String.mk name,
    "description: " ++ String.mk description]
  let withTags :=
    if tags.isEmpty then base
    else base ++ ["tags: [" ++ String.mk (pyJoinCommaSpace tags) ++ "]"]
  let withLicense :=
    match license with
    | some l => if l.isEmpty then withTags else withTags ++ ["license: " ++ l]
    | none => withTags
  let withMeta :=
    if metadata.isEmpty then withLicense
    else withLicense ++ ["metadata:"] ++
      metadata.map (fun kv => "  " ++ kv.1 ++ ": " ++ kv.2)
  let front := String.intercalate "\n" (withMeta ++ ["---"])
  let body :=
    match instructions with
    | some instr =>
      if instr.isEmpty then templateBody else "\n\n" ++ instr
    | none => templateBody
  front ++ body
where
  /-- The generated template body (the triple-quoted literal in the source). -/
  templateBody : String :=
    "\n\n## Instructions\n\n[Provide detailed step-by-step instructions for using this skill]\n\n## Examples\n\n[Add examples of how to use this skill]\n\n## Notes\n\n[Add any additional notes or considerations]\n"

/-- The loop in `create_skill` (skill_manager.py, lines 175-179) looking
for the first root directory named `.skills` or `skills`. -/
def findWritableRoot : List PyPath → Option PyPath
  | [] => none
  | r :: rs => if isWritableName r then some r else findWritableRoot rs

/-- Target-root selection of `create_skill` (lines 174-183): the first
conventionally named root, else the first root, else none. -/
def selectTargetRoot (roots : List PyPath) : Option PyPath :=
  match findWritableRoot roots with
  | some r => some r
  | none => roots.head?

/-- Outcomes of the filesystem calls `create_skill` performs, supplied as
an explicit environment (true = the call succeeds / the file exists). -/
structure CreateFsEnv where
  skillMdExists : Bool
  mkdirOk : Bool
  writeOk : Bool
  scriptsMkdirOk : Bool
  referencesMkdirOk : Bool
  assetsMkdirOk : Bool
  deriving Repr, DecidableEq

/-- The result dict returned by `create_skill` / `delete_skill`, reduced
to the fields the claims inspect. -/
structure OpResult where
  ok : Bool
  error : Option String
  skill_path : Option PyPath
  skill_dir : Option PyPath
  deriving Repr, DecidableEq

/-- Result of `create_skill` together with the filesystem effects:
`fileWritten` — SKILL.md was written by this call and is still on disk on
return; `fsTouched` — the call reached any filesystem-modifying call;
`writtenContent` — the text of the SKILL.md left on disk, when any. -/
structure CreateOut where
  result : OpResult
  fileWritten : Bool
  fsTouched : Bool
  writtenContent : Option String
  deriving Repr, DecidableEq

/-- Embedding of `create_skill` (skill_manager.py, lines 133-238). -/
def create_skill (roots : List PyPath) (path : PyStr) (description : PyStr)
    (tags : List PyStr) (instructions : Option String)
    (license : Option String) (metadata : List (String × String))
    (createScriptsDir createReferencesDir createAssetsDir : Bool)
    (env : CreateFsEnv) : CreateOut :=
  match parse_skill_path path with
  | .error _ => ⟨⟨false, some "invalid_path", none, none⟩, false, false, none⟩
  | .ok (category_path, skill_name) =>
    if description.isEmpty || description.length > 1024 then
      ⟨⟨false, some "invalid_description", none, none⟩, false, false, none⟩
    else
      let normalized_tags := normalize_tags tags
      match selectTargetRoot roots with
      | none => ⟨⟨false, some "no_root", none, none⟩, false, false, none⟩
      | some target_root =>
        let skill_dir : PyPath :=
          target_root ++ category_path.map String.mk ++ [String.mk skill_name]
        let skill_md_path : PyPath := skill_dir ++ ["SKILL.md"]
        if env.skillMdExists then
          ⟨⟨false, some "skill_exists", none, none⟩, false, false, none⟩
        else if !env.mkdirOk then
          ⟨⟨false, some "mkdir_failed", none, none⟩, false, true, none⟩
        else
          let content := generate_skill_markdown skill_name description
            normalized_tags instructions license metadata
          if !env.writeOk then
            -- write_text raised; the cleanup `shutil.rmtree` removes the file
            ⟨⟨false, some "write_failed", none, none⟩, false, true, none⟩
          else if createScriptsDir && !env.scriptsMkdirOk then
            ⟨⟨false, some "mkdir_optional_failed", none, none⟩, true, true, some content⟩
          else if createReferencesDir && !env.referencesMkdirOk then
            ⟨⟨false, some "mkdir_optional_failed", none, none⟩, true, true, some content⟩
          else if createAssetsDir && !env.assetsMkdirOk then
            ⟨⟨false, some "mkdir_optional_failed", none, none⟩, true, true, some content⟩
          else
            ⟨⟨true, none, some skill_md_path, some skill_dir⟩, true, true, some content⟩

/-- Embedding of `is_deletable_skill` (skill_manager.py, lines 241-269): walks the
roots in order; `Path.relative_to` succeeding is modelled as the root's
components being a prefix of the skill path's components. -/
def is_deletable_skill (skill_path : PyPath) (roots : List PyPath) : Bool × String :=
  match roots with
  | [] => (false, "Skill not in a deletable directory")
  | root :: rest =>
    if root.isPrefixOf skill_path then
      let rel_parts := skill_path.drop root.length
      if isWritableName root then
        if rel_parts.contains "imported" then (false, "Cannot delete imported skills")
        else (true, "")
      else if rootName root == ".skill_cortex_sources" then
        (false, "Cannot delete skills from source repositories")
      else is_deletable_skill skill_path rest
    else is_deletable_skill skill_path rest

/-- Result of `delete_skill` together with whether `shutil.rmtree` was
ever invoked (the only filesystem-modifying call it contains). -/
structure DeleteOut where
  result : OpResult
  rmtreeCalled : Bool
  deriving Repr, DecidableEq

/-- Embedding of `delete_skill` (skill_manager.py, lines 272-319). `pathExists` is the
outcome of `skill_path.exists()`; `rmtreeOk` whether `shutil.rmtree`
succeeds when reached. -/
def delete_skill (skill_path : PyPath) (roots : List PyPath) (confirm : Bool)
    (pathExists rmtreeOk : Bool) : DeleteOut :=
  if !pathExists then ⟨⟨false, some "skill_not_found", none, none⟩, false⟩
  else if !(is_deletable_skill skill_path roots).1 then
    ⟨⟨false, some "not_deletable", none, none⟩, false⟩
  else
    let skill_dir := skill_path.dropLast
    if !confirm then
      ⟨⟨false, some "confirmation_required", some skill_path, some skill_dir⟩, false⟩
    else if !rmtreeOk then
      ⟨⟨false, some "delete_failed", none, none⟩, true⟩
    else
      ⟨⟨true, none, some skill_path, some skill_dir⟩, true⟩

/-! ### `server.py` -/

/-- Embedding of `_parse_path_arg` (server.py, lines 61-64): `None` or the empty string
yields the empty tuple; otherwise split on `/` keeping only non-empty
components (no stripping). -/
def parsePathArg : Option PyStr → List PyStr
  | none => []
  | some s =>
    if s.isEmpty then []
    else (pySplitOn s '/').filter (fun p => !p.isEmpty)

/-- Modelled from the spec: `SkillFrontmatter` lives in
`skill_cortex/models.py`, which is not among the provided sources; fields
per spec section 3, reduced to those the serving layer reads. -/
structure SkillFrontmatter where
  title : String
  description : String
  tags : List PyStr
  deriving Repr, DecidableEq

/-- Modelled from the spec: `SkillRecord` (see `SkillFrontmatter` for the
missing source); fields per spec section 3. -/
structure SkillRecord where
  skill_id : PyStr
  skill_path : PyPath
  frontmatter : SkillFrontmatter
  description_snapshot : String
  tag_issues : List String
  category_path : List PyStr
  deriving Repr, DecidableEq

/-- Modelled from the spec: `TreeNode` (see `SkillFrontmatter` for the
missing source): `children` is a mapping from category-segment name to
child node — a Python dict with unique keys preserving insertion order,
modelled as an association list — plus the records located at the node. -/
inductive TreeNode where
  | node (children : List (PyStr × TreeNode)) (skills : List SkillRecord)

/-- The children association list of a node. -/
def TreeNode.children : TreeNode → List (PyStr × TreeNode)
  | .node cs _ => cs

/-- The records located directly at a node. -/
def TreeNode.skills : TreeNode → List SkillRecord
  | .node _ sk => sk

/-- The child-name keys of a node (`node.children.keys()`). -/
def TreeNode.childKeys (t : TreeNode) : List PyStr := t.children.map Prod.fst

/-- Python `dict.get` on the modelled children mapping. -/
def childGet : List (PyStr × TreeNode) → PyStr → Option TreeNode
  | [], _ => none
  | (k, t) :: rest, part => if k = part then some t else childGet rest part

/-- Embedding of `_find_node` (server.py, lines 67-73). -/
def findNode : TreeNode → List PyStr → Option TreeNode
  | t, [] => some t
  | t, p :: ps =>
    match childGet t.children p with
    | none => none
    | some c => findNode c ps

/-- Embedding of `_summarize_skill` (server.py, lines 138-146), as a record. -/
structure SkillSummary where
  skill_id : PyStr
  title : String
  description_snapshot : String
  tags : List PyStr
  tag_issues : List String
  category_path : List PyStr
  deriving Repr, DecidableEq

/-- Embedding of `_summarize_skill` (server.py, lines 138-146). -/
def summarizeSkill (s : SkillRecord) : SkillSummary :=
  ⟨s.skill_id, s.frontmatter.title, s.description_snapshot,
    s.frontmatter.tags, s.tag_issues, s.category_path⟩

/-- Python `sorted` on strings: a stable sort by the lexicographic
code-point order; modelled by insertion sort (also stable) under the
lexicographic order on `List Char`. -/
def pySortedKeys (l : List PyStr) : List PyStr :=
  List.insertionSort (· ≤ ·) l

/-- Return value of the `list_skill_tree` tool. -/
inductive TreeResult where
  | pathNotFound (path : List PyStr)
  | result (path : List PyStr) (categories : List PyStr) (skills : List SkillSummary)
  deriving Repr, DecidableEq

/-- Embedding of `list_skill_tree` (server.py, lines 229-241). -/
def list_skill_tree (tree : TreeNode) (path : Option PyStr) : TreeResult :=
  let parts := parsePathArg path
  match findNode tree parts with
  | none => .pathNotFound parts
  | some n => .result parts (pySortedKeys n.childKeys) (n.skills.map summarizeSkill)

/-- Embedding of `_format_tags_inline` (server.py, lines 149-150). -/
def formatTagsInline (tags : List PyStr) : PyStr :=
  '[' :: pyJoinCommaSpace tags ++ [']']

/-- The test `raw.lstrip().lower().startswith("tags:")` from
`_update_tags_in_skill_md`. -/
def isTagsLine (raw : PyStr) : Bool :=
  ['t', 'a', 'g', 's', ':'].isPrefixOf (pyLower (pyLstrip raw))

/-- The scan for the closing delimiter in `_update_tags_in_skill_md`
(lines 161-165), over `lines[1:]`: index of the first line whose strip is
`---`. -/
def findEndDelim : List PyStr → Option Nat
  | [] => none
  | l :: ls => if pyStrip l = dashes then some 0 else (findEndDelim ls).map (· + 1)

/-- The frontmatter rewrite loop of `_update_tags_in_skill_md`
(lines 175-184): every tags line is replaced by `newLine`; the flag
records whether any was found. -/
def replaceTagsLines (newLine : PyStr) : List PyStr → List PyStr × Bool
  | [] => ([], false)
  | raw :: rs =>
    let t := replaceTagsLines newLine rs
    if isTagsLine raw then (newLine :: t.1, true) else (raw :: t.1, t.2)

/-- Embedding of `_update_tags_in_skill_md` (server.py, lines 153-189) on the file's
text: returns the rewritten content, or the message of the `ValueError`
raised. -/
def updateTagsInSkillMd (content : PyStr) (new_tags : List PyStr) : Except String PyStr :=
  match pySplitlinesKeepends content with
  | [] => .error "empty_file"
  | l0 :: rest =>
    if pyStrip l0 ≠ dashes then .error "missing_frontmatter"
    else
      match findEndDelim rest with
      | none => .error "unterminated_frontmatter"
      | some k =>
        let front := rest.take k
        let close := (rest.drop k).headD []
        let body := rest.drop (k + 1)
        let newTagsLine := ['t', 'a', 'g', 's', ':', ' '] ++ formatTagsInline new_tags ++ ['\n']
        let rep := replaceTagsLines newTagsLine front
        let front' := if rep.2 then rep.1 else rep.1 ++ [newTagsLine]
        .ok (l0 ++ front'.flatten ++ close ++ body.flatten)

/-- The effect of `_update_tags_in_skill_md` on the file: the contents on
disk afterwards, and whether `write_text` was reached. An error escapes
before the write, leaving the contents unchanged. -/
def updateTagsFileEffect (content : PyStr) (new_tags : List PyStr) : PyStr × Bool :=
  match updateTagsInSkillMd content new_tags with
  | .ok c => (c, true)
  | .error _ => (content, false)

/-- One entry of the `updates` argument of the `update_tags` tool. -/
structure TagUpdate where
  skill_id : PyStr
  tags : List PyStr
  deriving Repr, DecidableEq

/-- Per-update outcome appended to `results` by `update_tags` in apply
mode (server.py, lines 329-352). -/
inductive UpdateOutcome where
  | missingSkillId
  | missingTags (skill_id : PyStr)
  | invalidTags (skill_id : PyStr) (invalid : List PyStr)
  | skillNotFound (skill_id : PyStr)
  | applied (skill_id : PyStr) (tags : List PyStr)
  | writeFailed (skill_id : PyStr)
  deriving Repr, DecidableEq

/-- The body of the update loop of `update_tags` in apply mode
(server.py, lines 329-352). `allowed` is the registry's allowed tag set
(modelled as a list), `knownIds` the ids of the scanned skills, `writeOk`
whether `_update_tags_in_skill_md` succeeds when reached. -/
def processUpdate (allowed : List PyStr) (knownIds : List PyStr)
    (writeOk : Bool) (upd : TagUpdate) : UpdateOutcome :=
  let skill_id := pyStrip upd.skill_id
  let tags_tuple := normalize_tags upd.tags
  if skill_id.isEmpty then .missingSkillId
  else if tags_tuple.isEmpty then .missingTags skill_id
  else
    let invalid := tags_tuple.filter (fun t => !allowed.contains t)
    if !invalid.isEmpty then .invalidTags skill_id invalid
    else if !knownIds.contains skill_id then .skillNotFound skill_id
    else if writeOk then .applied skill_id tags_tuple
    else .writeFailed skill_id

/-- Return value of the `update_tags` tool. -/
inductive UpdateTagsResult where
  | listing (bad : List SkillRecord)
  | invalidMode
  | missingUpdates
  | appliedAll (results : List UpdateOutcome)
  deriving Repr, DecidableEq

/-- Embedding of `update_tags` (server.py, lines 313-356): mode dispatch
(`(mode or "list").strip().lower()`), then the update loop. -/
def update_tags (skills : List SkillRecord) (allowed : List PyStr)
    (mode : Option PyStr) (updates : List TagUpdate) (writeOk : Bool) : UpdateTagsResult :=
  let raw := match mode with
    | none => "list".toList
    | some s => if s.isEmpty then "list".toList else s
  let m := pyLower (pyStrip raw)
  if m = "list".toList then
    .listing (skills.filter (fun s => !s.tag_issues.isEmpty))
  else if m ≠ "apply".toList then .invalidMode
  else if updates.isEmpty then .missingUpdates
  else
    .appliedAll (updates.map (processUpdate allowed (skills.map (·.skill_id)) writeOk))

/-- Return value of the `create_new_skill` tool: the `create_skill`
outcome plus whether the tool rescanned and resaved the cache before
returning (server.py, lines 400-406). -/
structure CreateToolOut where
  create : CreateOut
  rescanned : Bool
  cacheSaved : Bool
  deriving Repr, DecidableEq

/-- Embedding of `create_new_skill` (server.py, lines 358-406): delegates to
`create_skill`, then rescans and resaves only when the result is ok. -/
def create_new_skill (roots : List PyPath) (path description : PyStr)
    (tags : List PyStr) (instructions license : Option String)
    (metadata : List (String × String))
    (createScriptsDir createReferencesDir createAssetsDir : Bool)
    (env : CreateFsEnv) : CreateToolOut :=
  let o := create_skill roots path description tags instructions license
    metadata createScriptsDir createReferencesDir createAssetsDir env
  ⟨o, o.result.ok, o.result.ok⟩

/-! ### Lock-event traces for the serving layer

The lock discipline of `server.py` is modelled by the sequence of
lock/state events each tool performs, in program order. -/

/-- Events of the serving layer: acquiring/releasing `state_lock`, a
filesystem mutation, a `scan_skills` call, a `save_index` call. -/
inductive Ev where
  | acquire
  | release
  | fsWrite
  | rescan
  | saveCache
  deriving Repr, DecidableEq

/-- Embedding of `_ensure_state_loaded` (server.py, lines 39-58) as an event trace:
the guarded block either returns at once (state already loaded), loads
the cached index, or scans and saves inside the lock. -/
def ensureStateLoadedTrace (alreadyLoaded cacheHit : Bool) : List Ev :=
  if alreadyLoaded then [.acquire, .release]
  else if cacheHit then [.acquire, .release]
  else [.acquire, .rescan, .saveCache, .release]

/-- Embedding of `update_tags` in apply mode (server.py, lines 313-356) as an event
trace: `_ensure_state_loaded`, then the per-update file writes, then
`scan_skills` and `save_index` — all of the latter outside the lock. -/
def updateTagsApplyTrace (alreadyLoaded cacheHit : Bool) : List Ev :=
  ensureStateLoadedTrace alreadyLoaded cacheHit ++ [.fsWrite, .rescan, .saveCache]

/-- Embedding of `create_new_skill` (server.py, lines 358-406) as an event trace;
`ok` is whether `create_skill` returned ok (only then does the tool
rescan and resave). -/
def createNewSkillTrace (alreadyLoaded cacheHit ok : Bool) : List Ev :=
  ensureStateLoadedTrace alreadyLoaded cacheHit ++
    (if ok then [.fsWrite, .rescan, .saveCache] else [])

/-- Embedding of `delete_existing_skill` (server.py, lines 408-443) as an event trace;
`ok` is whether `delete_skill` returned ok. -/
def deleteExistingSkillTrace (alreadyLoaded cacheHit ok : Bool) : List Ev :=
  ensureStateLoadedTrace alreadyLoaded cacheHit ++
    (if ok then [.fsWrite, .rescan, .saveCache] else [])

/-- Whether an event is part of a mutation (filesystem change, rescan, or
cache resave). -/
def isMutEv : Ev → Bool
  | .fsWrite => true
  | .rescan => true
  | .saveCache => true
  | _ => false

/-- Number of lock acquisitions not yet released after the trace. -/
def lockDepth (t : List Ev) : Nat :=
  t.foldl (fun d e => match e with
    | .acquire => d + 1
    | .release => d - 1
    | _ => d) 0

/-- Every mutation event of the trace occurs while the lock is held. -/
def mutationsUnderLock (t : List Ev) : Bool :=
  t.enum.all (fun p => !isMutEv p.2 || decide (0 < lockDepth (t.take p.1)))

/-! ### Predicates written from claim wordings, for refinement claims -/

/-- Whether `parse_skill_path` accepts the path. -/
def parseOk (path : PyStr) : Bool :=
  match parse_skill_path path with
  | .ok _ => true
  | .error _ => false

/-- Validity of one component exactly as claim C10 words it: a non-empty
string of at most 64 characters drawn from lowercase letters, digits and
hyphens, with no leading, trailing, or consecutive hyphens. (Defined from
the claim's words, to be compared with `validate_skill_name_part`.) -/
def claimValidComponent (p : PyStr) : Bool :=
  !p.isEmpty && p.length ≤ 64 && p.all isNameChar &&
    p.head? != some '-' && p.getLast? != some '-' && !hasDoubleHyphen p

/-- Path acceptance exactly as claim C10 words it: split on `/`, drop the
whitespace-only components, accept iff at least one component remains and
every one is valid per `claimValidComponent`. -/
def claimAccepts (path : PyStr) : Bool :=
  let comps := (pySplitOn path '/').filter (fun p => !(pyStrip p).isEmpty)
  !comps.isEmpty && comps.all claimValidComponent

/-- Path acceptance as amended: as `claimAccepts`, but each surviving
component is stripped of surrounding whitespace before validation
(matching the source's `[p.strip() for p in path.split("/") if p.strip()]`). -/
def amendedAccepts (path : PyStr) : Bool :=
  !(stripParts path).isEmpty && (stripParts path).all claimValidComponent

/-- A sample category tree whose root children are stored out of
lexicographic order. -/
def sampleTree : TreeNode :=
  TreeNode.node
    [("b".toList, TreeNode.node [] []), ("a".toList, TreeNode.node [] [])] []

/-! ## Helper lemmas -/

theorem findEndDelim_eq_none (rest : List PyStr)
    (h : ∀ l ∈ rest, pyStrip l ≠ dashes) : findEndDelim rest = none := by
  induction rest with
  | nil => rfl
  | cons l ls ih =>
    have hl : pyStrip l ≠ dashes := h l (by simp)
    simp only [findEndDelim, if_neg hl]
    rw [ih (fun x hx => h x (by simp [hx]))]
    rfl

theorem findWritableRoot_eq_none (roots : List PyPath)
    (h : ∀ x ∈ roots, isWritableName x = false) : findWritableRoot roots = none := by
  induction roots with
  | nil => rfl
  | cons r rs ih =>
    have hr : isWritableName r = false := h r (by simp)
    simp only [findWritableRoot, hr, Bool.false_eq_true, if_false]
    exact ih (fun x hx => h x (by simp [hx]))

/-! ## Claim C1 -/

/-- C1, counterexample: in the event traces of `update_tags` (apply
mode), `create_new_skill` and `delete_existing_skill`, the filesystem
change, rescan and cache resave do not all occur while `state_lock` is
held — the claim that mutations are serialized through the guard fails on
the code, which only guards the lazy initialization. -/
theorem c1_counterexample :
    mutationsUnderLock (updateTagsApplyTrace true false) = false ∧
    mutationsUnderLock (createNewSkillTrace true false true) = false ∧
    mutationsUnderLock (deleteExistingSkillTrace true false true) = false := by
  decide

/-- C1 (amended): each mutation tool performs the filesystem change, the
full synchronous rescan and the cache resave in that order, but only
after `state_lock` has been fully released (lock depth zero); only the
lazy first-time initialization runs under the guard. -/
theorem c1_mutations_after_release (a c : Bool) :
    (∃ i, (updateTagsApplyTrace a c).take i = ensureStateLoadedTrace a c ∧
      lockDepth ((updateTagsApplyTrace a c).take i) = 0 ∧
      (updateTagsApplyTrace a c).drop i = [Ev.fsWrite, Ev.rescan, Ev.saveCache]) ∧
    (∃ i, (createNewSkillTrace a c true).take i = ensureStateLoadedTrace a c ∧
      lockDepth ((createNewSkillTrace a c true).take i) = 0 ∧
      (createNewSkillTrace a c true).drop i = [Ev.fsWrite, Ev.rescan, Ev.saveCache]) ∧
    (∃ i, (deleteExistingSkillTrace a c true).take i = ensureStateLoadedTrace a c ∧
      lockDepth ((deleteExistingSkillTrace a c true).take i) = 0 ∧
      (deleteExistingSkillTrace a c true).drop i = [Ev.fsWrite, Ev.rescan, Ev.saveCache]) := by
  cases a <;> cases c <;>
    first
      | exact ⟨⟨4, by decide⟩, ⟨4, by decide⟩, ⟨4, by decide⟩⟩
      | exact ⟨⟨2, by decide⟩, ⟨2, by decide⟩, ⟨2, by decide⟩⟩

/-- C1, witness for the amended theorem. -/
theorem c1_mutations_after_release_witness :
    ∃ i, (updateTagsApplyTrace true false).take i = ensureStateLoadedTrace true false ∧
      lockDepth ((updateTagsApplyTrace true false).take i) = 0 ∧
      (updateTagsApplyTrace true false).drop i = [Ev.fsWrite, Ev.rescan, Ev.saveCache] :=
  (c1_mutations_after_release true false).1

/-! ## Claim C2 -/

/-- C2, counterexample: with an empty allowed tag set, an update with a
non-empty normalized tag list is rejected with `invalid_tags` — tag
enforcement is not disabled in the update path. -/
theorem c2_counterexample :
    update_tags [] [] (some "apply".toList) [⟨"s".toList, ["coding".toList]⟩] true =
      UpdateTagsResult.appliedAll
        [UpdateOutcome.invalidTags "s".toList ["coding".toList]] ∧
    normalize_tags ["coding".toList] ≠ [] := by
  decide

/-- C2 (amended): when the registry's allowed tag set is empty, every
update processed by `update_tags` in apply mode with a non-empty skill id
and a non-empty normalized tag list is rejected with `invalid_tags`,
listing the entire normalized tag list as invalid. -/
theorem c2_empty_registry_rejects_all (ids : List PyStr) (w : Bool)
    (upd : TagUpdate) (h1 : pyStrip upd.skill_id ≠ [])
    (h2 : normalize_tags upd.tags ≠ []) :
    processUpdate [] ids w upd =
      UpdateOutcome.invalidTags (pyStrip upd.skill_id) (normalize_tags upd.tags) := by
  unfold processUpdate
  have e1 : (pyStrip upd.skill_id).isEmpty = false := by
    simpa [List.isEmpty_iff] using h1
  have e2 : (normalize_tags upd.tags).isEmpty = false := by
    simpa [List.isEmpty_iff] using h2
  have e3 : (normalize_tags upd.tags).filter
      (fun t => !(([] : List PyStr).contains t)) = normalize_tags upd.tags := by
    simp [List.filter_eq_self]
  simp only [e1, e2, e3, Bool.false_eq_true, if_false]
  simp [e2]

/-- C2, witness for the amended theorem. -/
theorem c2_empty_registry_rejects_all_witness :
    processUpdate [] [] true ⟨"s".toList, ["coding".toList]⟩ =
      UpdateOutcome.invalidTags (pyStrip "s".toList)
        (normalize_tags ["coding".toList]) :=
  c2_empty_registry_rejects_all [] true ⟨"s".toList, ["coding".toList]⟩
    (by decide) (by decide)

/-! ## Claim C4 -/

/-- C4: if the first line of the file is the opening frontmatter
delimiter and no later line is a closing delimiter,
`_update_tags_in_skill_md` fails with `unterminated_frontmatter` and the
file's contents are unchanged (the error escapes before the write). -/
theorem c4_unterminated_frontmatter (content : PyStr) (tags : List PyStr)
    (l0 : PyStr) (rest : List PyStr)
    (hsplit : pySplitlinesKeepends content = l0 :: rest)
    (hopen : pyStrip l0 = dashes)
    (hclose : ∀ l ∈ rest, pyStrip l ≠ dashes) :
    updateTagsInSkillMd content tags = Except.error "unterminated_frontmatter" ∧
    updateTagsFileEffect content tags = (content, false) := by
  have herr : updateTagsInSkillMd content tags = Except.error "unterminated_frontmatter" := by
    unfold updateTagsInSkillMd
    rw [hsplit]
    simp only [hopen, ne_eq, not_true_eq_false, if_false,
      findEndDelim_eq_none rest hclose]
  refine ⟨herr, ?_⟩
  unfold updateTagsFileEffect
  rw [herr]

/-- C4, witness. -/
theorem c4_unterminated_frontmatter_witness :
    updateTagsInSkillMd "---\nname: x\n".toList ["a".toList] =
      Except.error "unterminated_frontmatter" ∧
    updateTagsFileEffect "---\nname: x\n".toList ["a".toList] =
      ("---\nname: x\n".toList, false) :=
  c4_unterminated_frontmatter "---\nname: x\n".toList ["a".toList]
    "---\n".toList ["name: x\n".toList] (by decide) (by decide) (by decide)

/-! ## Claim C9 -/

/-- C9: for an existing, deletable skill, `delete_skill` with
`confirm=False` deletes nothing: it returns ok=False with
`confirmation_required`, carrying the skill path and its directory as a
preview, and `shutil.rmtree` is never invoked. -/
theorem c9_confirmation_required (p : PyPath) (roots : List PyPath) (rm : Bool)
    (hdel : (is_deletable_skill p roots).1 = true) :
    delete_skill p roots false true rm =
      ⟨⟨false, some "confirmation_required", some p, some p.dropLast⟩, false⟩ := by
  unfold delete_skill
  simp [hdel]

/-- C9, witness. -/
theorem c9_confirmation_required_witness :
    delete_skill [".skills", "demo", "SKILL.md"] [[".skills"]] false true true =
      ⟨⟨false, some "confirmation_required",
        some [".skills", "demo", "SKILL.md"], some [".skills", "demo"]⟩, false⟩ :=
  c9_confirmation_required [".skills", "demo", "SKILL.md"] [[".skills"]] true
    (by decide)

/-! ## Claim C3 -/

theorem create_skill_ok_fileWritten (roots : List PyPath) (path desc : PyStr)
    (tags : List PyStr) (instr lic : Option String) (md : List (String × String))
    (s r a : Bool) (env : CreateFsEnv)
    (h : (create_skill roots path desc tags instr lic md s r a env).result.ok = true) :
    (create_skill roots path desc tags instr lic md s r a env).fileWritten = true := by
  revert h
  unfold create_skill
  repeat' split
  all_goals intro h
  all_goals first
    | rfl
    | simp at h

/-- C3, counterexample: a call to `create_new_skill` that writes SKILL.md
to disk but whose optional `scripts/` directory creation then fails
returns ok=False, and the tool performs no rescan and no cache resave
even though the filesystem changed. -/
theorem c3_counterexample :
    (create_new_skill [["home", ".skills"]] "demo".toList "d".toList [] none none []
      true false false ⟨false, true, true, false, true, true⟩).create.fileWritten = true ∧
    (create_new_skill [["home", ".skills"]] "demo".toList "d".toList [] none none []
      true false false ⟨false, true, true, false, true, true⟩).rescanned = false ∧
    (create_new_skill [["home", ".skills"]] "demo".toList "d".toList [] none none []
      true false false ⟨false, true, true, false, true, true⟩).cacheSaved = false := by
  decide

/-- C3 (amended): for every call to `create_new_skill` that returns
ok=True, a SKILL.md was written to disk and a full synchronous rescan and
a cache resave are performed before the call returns; when optional
directory creation fails after the write, the call returns ok=False and
skips the rescan despite the filesystem change. -/
theorem c3_ok_implies_rescan_and_save (roots : List PyPath) (path desc : PyStr)
    (tags : List PyStr) (instr lic : Option String) (md : List (String × String))
    (s r a : Bool) (env : CreateFsEnv)
    (h : (create_new_skill roots path desc tags instr lic md s r a env).create.result.ok = true) :
    (create_new_skill roots path desc tags instr lic md s r a env).create.fileWritten = true ∧
    (create_new_skill roots path desc tags instr lic md s r a env).rescanned = true ∧
    (create_new_skill roots path desc tags instr lic md s r a env).cacheSaved = true := by
  have h' : (create_skill roots path desc tags instr lic md s r a env).result.ok = true := h
  exact ⟨create_skill_ok_fileWritten roots path desc tags instr lic md s r a env h', h', h'⟩

/-- C3, witness for the amended theorem. -/
theorem c3_ok_implies_rescan_and_save_witness :
    (create_new_skill [["home", ".skills"]] "demo".toList "d".toList [] none none []
      false false false ⟨false, true, true, true, true, true⟩).create.fileWritten = true ∧
    (create_new_skill [["home", ".skills"]] "demo".toList "d".toList [] none none []
      false false false ⟨false, true, true, true, true, true⟩).rescanned = true ∧
    (create_new_skill [["home", ".skills"]] "demo".toList "d".toList [] none none []
      false false false ⟨false, true, true, true, true, true⟩).cacheSaved = true :=
  c3_ok_implies_rescan_and_save [["home", ".skills"]] "demo".toList "d".toList []
    none none [] false false false ⟨false, true, true, true, true, true⟩ (by decide)

/-! ## Claim C5 -/

/-- C5, counterexample: a call with an empty description and an invalid
(empty) path fails with `invalid_path`, not `invalid_description`, so the
claim's error code is not returned on every empty-description call. -/
theorem c5_counterexample :
    (create_skill [] [] [] [] none none [] false false false
      ⟨false, true, true, true, true, true⟩).result.error = some "invalid_path" ∧
    some "invalid_path" ≠ some "invalid_description" := by
  decide

/-- C5 (amended): for every call whose path parses successfully and whose
description is empty, `create_skill` returns ok=False with
`invalid_description` and performs no filesystem operation; moreover no
call with an empty description ever returns ok=True, so every skill
authored through the creation flow has a non-empty description. -/
theorem c5_empty_description_rejected (roots : List PyPath) (path : PyStr)
    (tags : List PyStr) (instr lic : Option String) (md : List (String × String))
    (s r a : Bool) (env : CreateFsEnv) (cat : List PyStr) (nm : PyStr)
    (hp : parse_skill_path path = Except.ok (cat, nm)) :
    ((create_skill roots path [] tags instr lic md s r a env).result.ok = false ∧
     (create_skill roots path [] tags instr lic md s r a env).result.error =
       some "invalid_description" ∧
     (create_skill roots path [] tags instr lic md s r a env).fsTouched = false ∧
     (create_skill roots path [] tags instr lic md s r a env).fileWritten = false) ∧
    ∀ desc : PyStr,
      (create_skill roots path desc tags instr lic md s r a env).result.ok = true →
        desc ≠ [] := by
  constructor
  · unfold create_skill
    rw [hp]
    simp
  · intro desc hok hde
    subst hde
    unfold create_skill at hok
    rw [hp] at hok
    simp at hok

/-- C5, witness for the amended theorem. -/
theorem c5_empty_description_rejected_witness :
    ((create_skill [[".skills"]] "demo".toList [] [] none none [] false false false
      ⟨false, true, true, true, true, true⟩).result.ok = false ∧
     (create_skill [[".skills"]] "demo".toList [] [] none none [] false false false
      ⟨false, true, true, true, true, true⟩).result.error = some "invalid_description" ∧
     (create_skill [[".skills"]] "demo".toList [] [] none none [] false false false
      ⟨false, true, true, true, true, true⟩).fsTouched = false ∧
     (create_skill [[".skills"]] "demo".toList [] [] none none [] false false false
      ⟨false, true, true, true, true, true⟩).fileWritten = false) ∧
    ∀ desc : PyStr,
      (create_skill [[".skills"]] "demo".toList desc [] none none [] false false false
        ⟨false, true, true, true, true, true⟩).result.ok = true → desc ≠ [] :=
  c5_empty_description_rejected [[".skills"]] "demo".toList [] none none []
    false false false ⟨false, true, true, true, true, true⟩ [] "demo".toList rfl

/-! ## Claim C7 -/

theorem findWritableRoot_append (pre post : List PyPath) (r : PyPath)
    (hpre : ∀ x ∈ pre, isWritableName x = false) (hr : isWritableName r = true) :
    findWritableRoot (pre ++ r :: post) = some r := by
  induction pre with
  | nil => simp [findWritableRoot, hr]
  | cons x xs ih =>
    have hx : isWritableName x = false := hpre x (by simp)
    simp only [List.cons_append, findWritableRoot, hx, Bool.false_eq_true, if_false]
    exact ih (fun y hy => hpre y (by simp [hy]))

/-- C7: `create_skill` selects the first root named `.skills` or `skills`
as its creation target; with no such root it falls back to the first root
of the list; and with an empty root list a call that passes path and
description validation fails with `no_root`. -/
theorem c7_target_root_selection :
    (∀ (pre post : List PyPath) (r : PyPath),
      (∀ x ∈ pre, isWritableName x = false) → isWritableName r = true →
        selectTargetRoot (pre ++ r :: post) = some r) ∧
    (∀ roots : List PyPath,
      (∀ x ∈ roots, isWritableName x = false) →
        selectTargetRoot roots = roots.head?) ∧
    (∀ (path desc : PyStr) (tags : List PyStr) (instr lic : Option String)
      (md : List (String × String)) (s r a : Bool) (env : CreateFsEnv)
      (cat : List PyStr) (nm : PyStr),
      parse_skill_path path = Except.ok (cat, nm) → desc ≠ [] →
        desc.length ≤ 1024 →
        (create_skill [] path desc tags instr lic md s r a env).result.error =
          some "no_root") := by
  refine ⟨?_, ?_, ?_⟩
  · intro pre post r hpre hr
    simp [selectTargetRoot, findWritableRoot_append pre post r hpre hr]
  · intro roots hnone
    simp [selectTargetRoot, findWritableRoot_eq_none roots hnone]
  · intro path desc tags instr lic md s r a env cat nm hp hdesc hlen
    unfold create_skill
    rw [hp]
    have h1 : desc.isEmpty = false := by simpa [List.isEmpty_iff] using hdesc
    have h2 : decide (desc.length > 1024) = false := by
      simp only [decide_eq_false_iff_not, gt_iff_lt, not_lt]
      exact hlen
    simp [h1, h2, selectTargetRoot, findWritableRoot]

/-- C7, witness. -/
theorem c7_target_root_selection_witness :
    selectTargetRoot [["repo"], ["home", ".skills"], ["alt", "skills"]] =
      some ["home", ".skills"] ∧
    selectTargetRoot [["repo"], ["docs"]] = some ["repo"] ∧
    (create_skill [] "demo".toList "d".toList [] none none [] false false false
      ⟨false, true, true, true, true, true⟩).result.error = some "no_root" :=
  ⟨c7_target_root_selection.1 [["repo"]] [["alt", "skills"]] ["home", ".skills"]
      (by decide) (by decide),
   c7_target_root_selection.2.1 [["repo"], ["docs"]] (by decide),
   c7_target_root_selection.2.2 "demo".toList "d".toList [] none none [] false
      false false ⟨false, true, true, true, true, true⟩ [] "demo".toList rfl
      (by decide) (by decide)⟩

/-! ## Claim C8 -/

theorem is_deletable_true_elim (p : PyPath) (roots : List PyPath)
    (h : (is_deletable_skill p roots).1 = true) :
    ∃ r ∈ roots, isWritableName r = true ∧ r.isPrefixOf p = true ∧
      (p.drop r.length).contains "imported" = false := by
  induction roots with
  | nil => simp [is_deletable_skill] at h
  | cons root rest ih =>
    unfold is_deletable_skill at h
    by_cases hpre : root.isPrefixOf p = true
    · rw [if_pos hpre] at h
      by_cases hw : isWritableName root = true
      · rw [if_pos hw] at h
        by_cases him : (p.drop root.length).contains "imported" = true
        · rw [if_pos him] at h
          simp at h
        · refine ⟨root, by simp, hw, hpre, ?_⟩
          simpa using him
      · rw [if_neg hw] at h
        split at h
        · simp at h
        · obtain ⟨r, hrmem, hrest⟩ := ih h
          exact ⟨r, by simp [hrmem], hrest⟩
    · rw [if_neg hpre] at h
      obtain ⟨r, hrmem, hrest⟩ := ih h
      exact ⟨r, by simp [hrmem], hrest⟩

theorem delete_rmtree_implies_deletable (p : PyPath) (roots : List PyPath)
    (confirm pe rm : Bool)
    (h : (delete_skill p roots confirm pe rm).rmtreeCalled = true) :
    (is_deletable_skill p roots).1 = true := by
  revert h
  unfold delete_skill
  repeat' split
  all_goals intro h
  all_goals simp_all

/-- C8 (amended): `delete_skill` only reaches `shutil.rmtree` for a skill
that lies under a root named `.skills` or `skills` whose relative path
has no `imported` component; for every existing non-deletable skill it
returns ok=False with `not_deletable` and never calls `rmtree` (a
nonexistent path instead yields `skill_not_found`). -/
theorem c8_delete_guard (p : PyPath) (roots : List PyPath) (confirm rm : Bool) :
    ((delete_skill p roots confirm true rm).rmtreeCalled = true →
      ∃ r ∈ roots, isWritableName r = true ∧ r.isPrefixOf p = true ∧
        (p.drop r.length).contains "imported" = false) ∧
    ((is_deletable_skill p roots).1 = false →
      delete_skill p roots confirm true rm =
        ⟨⟨false, some "not_deletable", none, none⟩, false⟩) := by
  constructor
  · intro hrm
    exact is_deletable_true_elim p roots
      (delete_rmtree_implies_deletable p roots confirm true rm hrm)
  · intro hnd
    unfold delete_skill
    simp [hnd]

/-- C8, counterexample: a path under no root at all (the claim's "such
case") that does not exist on disk makes `delete_skill` return
`skill_not_found`, not `not_deletable` as the claim requires of every
such case. -/
theorem c8_counterexample :
    (delete_skill ["x", "SKILL.md"] [] true false true).result.error =
      some "skill_not_found" ∧
    (¬∃ r ∈ ([] : List PyPath), isWritableName r = true ∧
      r.isPrefixOf ["x", "SKILL.md"] = true) ∧
    some "skill_not_found" ≠ some "not_deletable" := by
  refine ⟨by decide, by simp, by decide⟩

/-- C8, witness for the amended theorem. -/
theorem c8_delete_guard_witness :
    delete_skill [".skills", "imported", "x", "SKILL.md"] [[".skills"]] true true true =
      ⟨⟨false, some "not_deletable", none, none⟩, false⟩ :=
  (c8_delete_guard [".skills", "imported", "x", "SKILL.md"] [[".skills"]] true true).2
    (by decide)

/-! ## Claim C6 -/

/-- C6: whenever the path argument resolves to a tree node,
`list_skill_tree` answers with that node's child category names sorted
lexicographically — a sorted permutation of the keys of the node's
children mapping, computed at read time (it depends only on the key
multiset, not on the stored order). -/
theorem c6_categories_sorted (tree : TreeNode) (path : Option PyStr) (n : TreeNode)
    (h : findNode tree (parsePathArg path) = some n) :
    list_skill_tree tree path =
      TreeResult.result (parsePathArg path) (pySortedKeys n.childKeys)
        (n.skills.map summarizeSkill) ∧
    List.Sorted (· ≤ ·) (pySortedKeys n.childKeys) ∧
    (pySortedKeys n.childKeys).Perm n.childKeys := by
  refine ⟨?_, List.sorted_insertionSort _ _, List.perm_insertionSort _ _⟩
  simp [list_skill_tree, h]

/-- C6, witness: a tree whose children are stored out of order. -/
theorem c6_categories_sorted_witness :
    list_skill_tree sampleTree none =
      TreeResult.result [] (pySortedKeys sampleTree.childKeys)
        (sampleTree.skills.map summarizeSkill) ∧
    List.Sorted (· ≤ ·) (pySortedKeys sampleTree.childKeys) ∧
    (pySortedKeys sampleTree.childKeys).Perm sampleTree.childKeys :=
  c6_categories_sorted sampleTree none sampleTree rfl

/-! ## Claim C10 -/

theorem head_dropWhile_false (p : Char → Bool) (l : List Char) (c : Char)
    (h : (l.dropWhile p).head? = some c) : p c = false := by
  induction l with
  | nil => simp at h
  | cons x xs ih =>
    rw [List.dropWhile_cons] at h
    by_cases hx : p x = true
    · rw [if_pos hx] at h
      exact ih h
    · rw [if_neg hx] at h
      simp only [List.head?_cons, Option.some.injEq] at h
      subst h
      simpa using hx

theorem pyStrip_getLast_not_space (s : PyStr) (c : Char)
    (h : (pyStrip s).getLast? = some c) : isPySpace c = false := by
  unfold pyStrip pyRstrip at h
  rw [List.getLast?_reverse] at h
  exact head_dropWhile_false isPySpace _ c h

theorem stripParts_no_trailing_newline (path : PyStr) (p : PyStr)
    (h : p ∈ stripParts path) : p.getLast? ≠ some '\n' := by
  unfold stripParts at h
  rw [List.mem_filter] at h
  obtain ⟨hmem, _⟩ := h
  rw [List.mem_map] at hmem
  obtain ⟨q, _, rfl⟩ := hmem
  intro hcon
  have := pyStrip_getLast_not_space q '\n' hcon
  simp [isPySpace] at this

theorem validate_eq_claim (p : PyStr) (hnl : p.getLast? ≠ some '\n') :
    (validate_skill_name_part p).1 = true ↔ claimValidComponent p = true := by
  unfold validate_skill_name_part claimValidComponent matchesNamePattern
  rw [if_neg hnl]
  split_ifs with h1 h2 h3 h4 h5
  · simp_all
  · simp_all
  · simp_all
  · simp only [Bool.or_eq_true, decide_eq_true_eq] at h4
    rcases h4 with h | h <;> simp_all
  · simp_all
  · simp_all

theorem checkParts_eq_none_iff (ps : List PyStr) :
    checkParts ps = none ↔ ∀ p ∈ ps, (validate_skill_name_part p).1 = true := by
  induction ps with
  | nil => simp [checkParts]
  | cons p ps ih =>
    unfold checkParts
    by_cases hv : (validate_skill_name_part p).1 = true
    · simp [hv, ih]
    · simp [hv]

theorem stripParts_valid_iff (path : PyStr) :
    (∀ p ∈ stripParts path, (validate_skill_name_part p).1 = true) ↔
      (stripParts path).all claimValidComponent = true := by
  rw [List.all_eq_true]
  constructor <;> intro h p hp
  · exact (validate_eq_claim p (stripParts_no_trailing_newline path p hp)).mp (h p hp)
  · exact (validate_eq_claim p (stripParts_no_trailing_newline path p hp)).mpr (h p hp)

/-- C10 (amended): `parse_skill_path` accepts a path iff, after splitting
on `/`, stripping surrounding whitespace from each component and dropping
those that were whitespace-only, at least one component remains and every
one is a non-empty string of at most 64 characters drawn from lowercase
letters, digits and hyphens, with no leading, trailing, or consecutive
hyphens; on success the skill name is the last stripped component and the
category path the preceding ones, in order. -/
theorem c10_parse_path_characterization (path : PyStr) :
    (parseOk path = true ↔ amendedAccepts path = true) ∧
    ∀ (cat : List PyStr) (nm : PyStr),
      parse_skill_path path = Except.ok (cat, nm) →
        cat = (stripParts path).dropLast ∧ nm = (stripParts path).getLastD [] := by
  constructor
  · unfold parseOk parse_skill_path amendedAccepts
    by_cases h0 : path.isEmpty
    · have hp : path = [] := by simpa [List.isEmpty_iff] using h0
      subst hp
      decide
    · by_cases h1 : (stripParts path).isEmpty
      · simp [h0, h1]
      · simp only [h0, h1, Bool.false_eq_true, if_false, Bool.not_false,
          Bool.true_and]
        cases hc : checkParts (stripParts path) with
        | some e =>
          have : ¬∀ p ∈ stripParts path, (validate_skill_name_part p).1 = true := by
            intro hall
            rw [← checkParts_eq_none_iff] at hall
            rw [hall] at hc
            exact Option.noConfusion hc
          rw [stripParts_valid_iff] at this
          simp [this]
        | none =>
          have hall := (checkParts_eq_none_iff (stripParts path)).mp hc
          rw [stripParts_valid_iff] at hall
          simp [hall]
  · intro cat nm h
    unfold parse_skill_path at h
    by_cases h0 : path.isEmpty
    · simp [h0] at h
    · by_cases h1 : (stripParts path).isEmpty
      · simp [h0, h1] at h
      · cases hc : checkParts (stripParts path) with
        | some e => simp [h0, h1, hc] at h
        | none =>
          simp only [h0, h1, Bool.false_eq_true, if_false, hc] at h
          rw [Except.ok.injEq, Prod.mk.injEq] at h
          exact ⟨h.1.symm, h.2.symm⟩

/-- C10, counterexample: the component `" a"` is not whitespace-only and
contains a character outside `[a-z0-9-]`, so the claim's predicate
rejects the path, yet `parse_skill_path` accepts it (the source strips
each component before validating). -/
theorem c10_counterexample :
    parseOk " a".toList = true ∧ claimAccepts " a".toList = false := by
  decide

/-- C10, witness for the amended theorem. -/
theorem c10_parse_path_characterization_witness :
    (parseOk "coding/python-helper".toList = true ↔
      amendedAccepts "coding/python-helper".toList = true) ∧
    (["coding".toList] = (stripParts "coding/python-helper".toList).dropLast ∧
     "python-helper".toList = (stripParts "coding/python-helper".toList).getLastD []) :=
  ⟨(c10_parse_path_characterization "coding/python-helper".toList).1,
   (c10_parse_path_characterization "coding/python-helper".toList).2
     ["coding".toList] "python-helper".toList rfl⟩

end SkillCortex
